import Mathlib

/-
Verification of the session adapter `FunticoManager` (src/src/funtico-sdk.ts).

The adapter wraps an opaque vendor SDK object and the browser page.  The
shallow embedding below models:
  * the adapter's mutable fields (`sdk`, `isInitialized`, `userInfo`) as an
    explicit state record;
  * each public async method as a pure function from the state, the page
    environment and a record of vendor-call outcomes to a result record
    (returned value as `Except` — `.error` would mean an exception escaping
    to the caller — plus the successor state and the observable effects:
    the list of method invocations attempted on the `sdk` field, any page
    navigation, any blocking alert, any history rewrite);
  * JavaScript truthiness of the strings and nullable values the source
    inspects (`if (error)`, `error.message && ...`, `|| 'Guest'`).
Percent-decoding of query-string values is not modelled; the adapter only
reads parameters whose values it never decodes.
-/

namespace AvalancheKnight

/-- First list is a prefix of the second. -/
def isPrefixList : List Char → List Char → Bool
  | [], _ => true
  | _ :: _, [] => false
  | a :: as, b :: bs => a = b && isPrefixList as bs

/-- `sub` occurs as a contiguous sublist of `s`. -/
def containsSub (s sub : List Char) : Bool :=
  isPrefixList sub s ||
    match s with
    | [] => false
    | _ :: rest => containsSub rest sub

/-- Split at every occurrence of the character `c` (so `n` separators yield
`n + 1` pieces, empty pieces included). -/
def splitOnChar (c : Char) (l : List Char) : List (List Char) :=
  match l with
  | [] => [[]]
  | a :: as =>
    if a = c then [] :: splitOnChar c as
    else
      match splitOnChar c as with
      | [] => [[a]]
      | h :: t => (a :: h) :: t

/-- Split at the first equals sign: the part before it and, when one
exists, everything after it. -/
def splitFirstEq : List Char → List Char × Option (List Char)
  | [] => ([], none)
  | a :: as =>
    if a = '=' then ([], some as)
    else
      let r := splitFirstEq as
      (a :: r.1, r.2)

/-- JavaScript `String.prototype.includes`: `sub` occurs in `s` (the empty
substring always occurs). -/
def jsIncludes (s sub : String) : Bool :=
  containsSub s.data sub.data

/-- JavaScript truthiness of a nullable string (`null` and `""` are falsy). -/
def optStrTruthy (o : Option String) : Bool :=
  match o with
  | none => false
  | some s => decide (s ≠ "")

/-- Upper-case hexadecimal digit for `n < 16`. -/
def uriHexDigit (n : Nat) : Char :=
  if n < 10 then Char.ofNat (48 + n) else Char.ofNat (55 + n)

/-- Characters `encodeURIComponent` leaves unescaped. -/
def isURIUnreserved (c : Char) : Bool :=
  c.isAlphanum || c = '-' || c = '_' || c = '.' || c = '!' || c = '~' ||
    c = '*' || c = Char.ofNat 39 || c = '(' || c = ')'

/-- Percent-escape of one UTF-8 byte. -/
def percentEncodeByte (b : UInt8) : String :=
  String.mk [Char.ofNat 37, uriHexDigit (b.toNat / 16), uriHexDigit (b.toNat % 16)]

/-- Model of JavaScript `encodeURIComponent`. -/
def encodeURIComponent (s : String) : String :=
  String.join (s.data.map fun c =>
    if isURIUnreserved c then String.mk [c]
    else String.join ((String.mk [c]).toUTF8.toList.map percentEncodeByte))

/-- Query-string pairs in the order `URLSearchParams` sees them: strip a
leading question mark, split on ampersands, split each non-empty piece at
its first equals sign (a piece without one has the empty value). -/
def parseQueryPairs (search : String) : List (String × String) :=
  let t :=
    match search.data with
    | [] => []
    | c :: rest => if c = '?' then rest else c :: rest
  (splitOnChar '&' t).filterMap fun pair =>
    match pair with
    | [] => none
    | _ =>
      let kv := splitFirstEq pair
      some (String.mk kv.1, String.mk (kv.2.getD []))

/-- Model of `URLSearchParams.get`: value of the first occurrence of `key`,
`none` when the parameter is absent (JS `null`). -/
def urlParamsGet (search key : String) : Option String :=
  ((parseQueryPairs search).find? fun p => p.1 = key).map Prod.snd

/-- Identity record cached in the adapter's `userInfo` field.  The vendor
returns an untyped object; the fields the adapter reads are `username`,
`user_id` and (for the demo identity) `email`. -/
structure UserIdentity where
  username : String
  user_id : Int
  email : Option String
  deriving DecidableEq, Repr

/-- A JavaScript nullable identity value, as stored in the `userInfo`
field and as resolved by the vendor `getUserInfo` promise: the field is
initialized to `null`; the untyped vendor call may resolve an identity
object, `null`, or `undefined` (an async method returning without a
value).  The source distinguishes the `!== null` test from truthiness
tests, so the model keeps all three cases. -/
inductive JsUserInfo where
  | undefined
  | null
  | obj (u : UserIdentity)
  deriving DecidableEq, Repr

/-- JavaScript truthiness of such a value: objects are truthy, `null` and
`undefined` are falsy. -/
def jsTruthy : JsUserInfo → Bool
  | JsUserInfo.obj _ => true
  | _ => false

/-- A JavaScript exception value as the adapter observes it: an optional
`message` string plus the optional `name`/`status` fields that
`isSDKError` probes. -/
structure JsErr where
  message : Option String := none
  hasName : Bool := false
  nameVal : String := ""
  hasStatus : Bool := false
  status : Int := 0
  deriving DecidableEq, Repr

/-- Source `isSDKError`: the thrown value is an object owning both a `name`
and a `status` field (every modelled error is a non-null object). -/
def isSDKError (e : JsErr) : Bool :=
  e.hasName && e.hasStatus

/-- The adapter's `sdk` field: `undefined` (constructor threw before the
assignment), JS `null`, or the constructed vendor object. -/
inductive SDKRef where
  | undefined
  | null
  | obj
  deriving DecidableEq, Repr

/-- Mutable fields of a `FunticoManager` instance. -/
structure AdapterState where
  sdk : SDKRef
  isInitialized : Bool
  userInfo : JsUserInfo
  deriving DecidableEq, Repr

/-- Configuration object passed to the vendor SDK constructor. -/
structure SDKConfig where
  authClientId : String
  env : String
  autoLogin : Bool
  deriving DecidableEq, Repr

/-- An entry of the vendor leaderboard; the adapter passes entries through
without inspecting them. -/
structure LeaderboardEntry where
  username : String
  score : Int
  deriving DecidableEq, Repr

deriving instance DecidableEq for Except

/-- Outcomes of the vendor-SDK calls an operation may issue: `.ok` when the
awaited promise resolves, `.error e` when it rejects with `e`. -/
structure VendorBehavior where
  getUserInfoResult : Except JsErr JsUserInfo
  signInWithFunticoResult : Except JsErr Unit
  saveScoreResult : Except JsErr Unit
  getLeaderboardResult : Except JsErr (List LeaderboardEntry)
  signOutResult : Except JsErr Unit
  exchangeCodeForTokenResult : Except JsErr String
  deriving DecidableEq, Repr

/-- The host page as the adapter reads it (`window.location` fields) plus
the outcome of assigning `window.location.href` (the one page effect inside
the sign-in `try` that can throw). -/
structure PageEnv where
  hostname : String
  origin : String
  href : String
  search : String
  pathname : String
  navigateResult : Except JsErr Unit
  deriving DecidableEq, Repr

/-- A method invocation the adapter attempts on its `sdk` field, i.e. an
evaluation of a source expression `this.sdk.m(...)`.  When the field holds
no object the attempt throws a `TypeError` before reaching any vendor
code. -/
inductive SdkCall where
  | getUserInfo
  | signInWithFuntico (callbackUrl : String)
  | saveScore (score : Int)
  | getLeaderboard
  | signOut (redirectUrl : String)
  | exchangeCodeForToken (code : String)
  deriving DecidableEq, Repr

/-- Result of one public operation: the value handed to the caller (`ret`,
with `.error` marking an exception escaping the method), the successor
state, and the observable effects. -/
structure OpOut (α : Type) where
  ret : Except JsErr α
  state : AdapterState
  calls : List SdkCall := []
  navigatedTo : Option String := none
  alerted : Bool := false
  urlRewrittenTo : Option String := none
  deriving DecidableEq, Repr

namespace FunticoManager

/-- Source line 27: `window.location.hostname.includes('funtico.com')`. -/
def isFunticoHostedOf (hostname : String) : Bool :=
  jsIncludes hostname "funtico.com"

/-- Source line 28: production when hosted on `vercel.app` or on Funtico. -/
def isProductionOf (hostname : String) : Bool :=
  jsIncludes hostname "vercel.app" || isFunticoHostedOf hostname

/-- Configuration handed to `new FunticoSDK(...)` (source lines 30-34). -/
def sdkConfigOf (hostname : String) : SDKConfig :=
  { authClientId := "gl-avalanche-knight"
    env := if isProductionOf hostname then "production" else "sandbox"
    autoLogin := isFunticoHostedOf hostname }

/-- State after the constructor ran `initializeSDK` (source lines 24-46):
on success the handle is the constructed object and the flag is set; if the
vendor constructor threw, the `sdk` assignment never happened (the field
keeps its `undefined` default) and the flag is cleared. -/
def initializeSDK (constructorThrew : Bool) : AdapterState :=
  if constructorThrew then
    { sdk := SDKRef.undefined, isInitialized := false, userInfo := JsUserInfo.null }
  else
    { sdk := SDKRef.obj, isInitialized := true, userInfo := JsUserInfo.null }

/-- Source lines 49-51: `this.isInitialized && this.sdk !== null`. -/
def isReady (s : AdapterState) : Bool :=
  s.isInitialized && decide (s.sdk ≠ SDKRef.null)

/-- The `TypeError` raised by evaluating `this.sdk.m(...)` when the `sdk`
field holds no object. -/
def absentHandleTypeError : JsErr :=
  { message := some "this.sdk is undefined", hasName := true, nameVal := "TypeError" }

/-- Outcome of evaluating `this.sdk.m(...)`: the vendor outcome when the
handle is an object, a `TypeError` otherwise. -/
def callHandle (s : AdapterState) (outcome : Except JsErr α) : Except JsErr α :=
  match s.sdk with
  | SDKRef.obj => outcome
  | _ => Except.error absentHandleTypeError

/-- The fixed demo identity of the sign-in `redirect_uri` workaround
(source lines 108-112). -/
def demoIdentity : UserIdentity :=
  { username := "demo_player", user_id := 99999, email := some "demo@avalanche-knight.com" }

/-- Funtico-hosted branch of `signIn` (source lines 60-74): probe the
existing session via `this.userInfo = await this.sdk.getUserInfo()`.
Returns the state after the probe, whether the probe found a truthy
identity (early `return true`), and the attempted handle calls. -/
def signInHostedProbe (s : AdapterState) (env : PageEnv) (vb : VendorBehavior) :
    AdapterState × Bool × List SdkCall :=
  if isFunticoHostedOf env.hostname then
    match callHandle s vb.getUserInfoResult with
    | Except.ok v => ({ s with userInfo := v }, jsTruthy v, [SdkCall.getUserInfo])
    | Except.error _ => (s, false, [SdkCall.getUserInfo])
  else (s, false, [])

/-- `signIn` (source lines 54-121). -/
def signIn (s : AdapterState) (env : PageEnv) (vb : VendorBehavior) : OpOut Bool :=
  if !(isReady s) then { ret := Except.ok false, state := s }
  else
    let probe := signInHostedProbe s env vb
    let s1 := probe.1
    let calls0 := probe.2.2
    if probe.2.1 then { ret := Except.ok true, state := s1, calls := calls0 }
    else
      let callbackUrl := env.origin ++ "/"
      match callHandle s1 vb.signInWithFunticoResult with
      | Except.ok _ =>
          { ret := Except.ok true, state := s1
            calls := calls0 ++ [SdkCall.signInWithFuntico callbackUrl] }
      | Except.error _ =>
          let loginUrl :=
            "https://auth.funtico.com/oauth2/auth?client_id=gl-avalanche-knight&redirect_uri="
              ++ encodeURIComponent callbackUrl ++ "&response_type=code&scope=openid+profile+email"
          match env.navigateResult with
          | Except.ok _ =>
              { ret := Except.ok true, state := s1
                calls := calls0 ++ [SdkCall.signInWithFuntico callbackUrl]
                navigatedTo := some loginUrl }
          | Except.error e =>
              if optStrTruthy e.message && jsIncludes (e.message.getD "") "redirect_uri" then
                { ret := Except.ok true, state := { s1 with userInfo := JsUserInfo.obj demoIdentity }
                  calls := calls0 ++ [SdkCall.signInWithFuntico callbackUrl]
                  alerted := true }
              else
                { ret := Except.ok false, state := s1
                  calls := calls0 ++ [SdkCall.signInWithFuntico callbackUrl] }

/-- Catch block of `getUserInfo` (source lines 138-154): classify the error
via `isSDKError` and the `name` switch; every branch yields `null`. -/
def getUserInfoErrorResult (e : JsErr) : JsUserInfo :=
  if isSDKError e then
    if e.nameVal = "auth_error" then JsUserInfo.null
    else if e.nameVal = "internal_server_error" then JsUserInfo.null
    else JsUserInfo.null
  else JsUserInfo.null

/-- `getUserInfo` (source lines 124-155). -/
def getUserInfo (s : AdapterState) (vb : VendorBehavior) : OpOut JsUserInfo :=
  if !(isReady s) then { ret := Except.ok JsUserInfo.null, state := s }
  else if jsTruthy s.userInfo then { ret := Except.ok s.userInfo, state := s }
  else
    match callHandle s vb.getUserInfoResult with
    | Except.ok v =>
        { ret := Except.ok v, state := { s with userInfo := v }, calls := [SdkCall.getUserInfo] }
    | Except.error e =>
        { ret := Except.ok (getUserInfoErrorResult e), state := s, calls := [SdkCall.getUserInfo] }

/-- `saveScore` (source lines 158-177): both the success path and the catch
block resolve to `true`. -/
def saveScore (s : AdapterState) (score : Int) (vb : VendorBehavior) : OpOut Bool :=
  if !(isReady s) then { ret := Except.ok false, state := s }
  else
    match callHandle s vb.saveScoreResult with
    | Except.ok _ => { ret := Except.ok true, state := s, calls := [SdkCall.saveScore score] }
    | Except.error _ => { ret := Except.ok true, state := s, calls := [SdkCall.saveScore score] }

/-- `getLeaderboard` (source lines 180-193). -/
def getLeaderboard (s : AdapterState) (vb : VendorBehavior) : OpOut (List LeaderboardEntry) :=
  if !(isReady s) then { ret := Except.ok [], state := s }
  else
    match callHandle s vb.getLeaderboardResult with
    | Except.ok l => { ret := Except.ok l, state := s, calls := [SdkCall.getLeaderboard] }
    | Except.error _ => { ret := Except.ok [], state := s, calls := [SdkCall.getLeaderboard] }

/-- `signOut` (source lines 196-211). -/
def signOut (s : AdapterState) (env : PageEnv) (vb : VendorBehavior) : OpOut Bool :=
  if !(isReady s) then { ret := Except.ok false, state := s }
  else
    match callHandle s vb.signOutResult with
    | Except.ok _ =>
        { ret := Except.ok true, state := { s with userInfo := JsUserInfo.null }
          calls := [SdkCall.signOut env.href] }
    | Except.error _ =>
        { ret := Except.ok false, state := s, calls := [SdkCall.signOut env.href] }

/-- `handleCallback` (source lines 214-246).  Note: unlike every other
operation it never consults `isReady`; with a truthy `code` parameter it
evaluates `this.sdk.exchangeCodeForToken(code)` unconditionally, and when
the handle is absent the resulting `TypeError` is swallowed by its own
catch block. -/
def handleCallback (s : AdapterState) (env : PageEnv) (vb : VendorBehavior) : OpOut Bool :=
  let code := urlParamsGet env.search "code"
  let errorParam := urlParamsGet env.search "error"
  if optStrTruthy errorParam then { ret := Except.ok false, state := s }
  else if optStrTruthy code then
    let c := code.getD ""
    match callHandle s vb.exchangeCodeForTokenResult with
    | Except.error _ =>
        { ret := Except.ok false, state := s, calls := [SdkCall.exchangeCodeForToken c] }
    | Except.ok _ =>
        match callHandle s vb.getUserInfoResult with
        | Except.error _ =>
            { ret := Except.ok false, state := s
              calls := [SdkCall.exchangeCodeForToken c, SdkCall.getUserInfo] }
        | Except.ok v =>
            { ret := Except.ok true, state := { s with userInfo := v }
              calls := [SdkCall.exchangeCodeForToken c, SdkCall.getUserInfo]
              urlRewrittenTo := some env.pathname }
  else { ret := Except.ok false, state := s }

/-- `isAuthenticated` (source lines 249-251): `this.userInfo !== null`. -/
def isAuthenticated (s : AdapterState) : Bool :=
  decide (s.userInfo ≠ JsUserInfo.null)

/-- `getUsername` (source lines 254-256): `this.userInfo?.username || 'Guest'`
— the empty string is falsy, so it also yields the guest label. -/
def getUsername (s : AdapterState) : String :=
  match s.userInfo with
  | JsUserInfo.obj u => if u.username = "" then "Guest" else u.username
  | _ => "Guest"

/-- `getUserId` (source lines 259-261): `this.userInfo?.user_id || null`
— the id `0` is falsy, so it also yields `null`. -/
def getUserId (s : AdapterState) : Option Int :=
  match s.userInfo with
  | JsUserInfo.obj u => if u.user_id = 0 then none else some u.user_id
  | _ => none

end FunticoManager

/-- One public mutating operation of the adapter, with arbitrary page
environment and vendor behavior. -/
inductive Step : AdapterState → AdapterState → Prop where
  | signIn (s : AdapterState) (env : PageEnv) (vb : VendorBehavior) :
      Step s (FunticoManager.signIn s env vb).state
  | getUserInfo (s : AdapterState) (vb : VendorBehavior) :
      Step s (FunticoManager.getUserInfo s vb).state
  | saveScore (s : AdapterState) (score : Int) (vb : VendorBehavior) :
      Step s (FunticoManager.saveScore s score vb).state
  | getLeaderboard (s : AdapterState) (vb : VendorBehavior) :
      Step s (FunticoManager.getLeaderboard s vb).state
  | signOut (s : AdapterState) (env : PageEnv) (vb : VendorBehavior) :
      Step s (FunticoManager.signOut s env vb).state
  | handleCallback (s : AdapterState) (env : PageEnv) (vb : VendorBehavior) :
      Step s (FunticoManager.handleCallback s env vb).state

/-- Adapter states reachable from construction by public operations. -/
inductive Reachable : AdapterState → Prop where
  | init (constructorThrew : Bool) : Reachable (FunticoManager.initializeSDK constructorThrew)
  | step {s t : AdapterState} : Reachable s → Step s t → Reachable t

/-- Invariant of every reachable state: either construction succeeded (flag
set, handle is the vendor object) or it failed (flag clear, handle still
`undefined`, no identity ever cached). -/
def Inv (s : AdapterState) : Prop :=
  (s.isInitialized = true ∧ s.sdk = SDKRef.obj) ∨
  (s.isInitialized = false ∧ s.sdk = SDKRef.undefined ∧ s.userInfo = JsUserInfo.null)

/-- The identity used by the concrete vendor fixtures below. -/
def aliceIdentity : UserIdentity :=
  { username := "alice", user_id := 7, email := none }

/-- A vendor whose every call succeeds; `getUserInfo` yields Alice. -/
def vbAllOk : VendorBehavior :=
  { getUserInfoResult := Except.ok (JsUserInfo.obj aliceIdentity)
    signInWithFunticoResult := Except.ok ()
    saveScoreResult := Except.ok ()
    getLeaderboardResult := Except.ok []
    signOutResult := Except.ok ()
    exchangeCodeForTokenResult := Except.ok "tok123" }

/-- A structured vendor error (`internal_server_error`, status 500). -/
def sdkDownError : JsErr :=
  { message := some "service unavailable", hasName := true,
    nameVal := "internal_server_error", hasStatus := true, status := 500 }

/-- A vendor whose every call rejects with `sdkDownError`. -/
def vbAllFail : VendorBehavior :=
  { getUserInfoResult := Except.error sdkDownError
    signInWithFunticoResult := Except.error sdkDownError
    saveScoreResult := Except.error sdkDownError
    getLeaderboardResult := Except.error sdkDownError
    signOutResult := Except.error sdkDownError
    exchangeCodeForTokenResult := Except.error sdkDownError }

/-- An externally hosted page with no query string. -/
def plainEnv : PageEnv :=
  { hostname := "example.com", origin := "https://example.com"
    href := "https://example.com/", search := "", pathname := "/"
    navigateResult := Except.ok () }

/-- The page after an OAuth redirect carrying `?code=abc123`. -/
def codeCallbackEnv : PageEnv :=
  { hostname := "example.com", origin := "https://example.com"
    href := "https://example.com/?code=abc123", search := "?code=abc123"
    pathname := "/", navigateResult := Except.ok () }

/-- C2 counterexample.  A ready adapter whose vendor sign-in call rejects
with a message containing `redirect_uri`: the inner catch navigates to the
hand-built OAuth URL and the call returns true, but the cached identity
stays empty — not the demo identity the claim requires. -/
def vbSignInRejects : VendorBehavior :=
  { vbAllOk with
    signInWithFunticoResult := Except.error { message := some "invalid redirect_uri for client" } }

/-- Witness for the amended C2 at a concrete ready state. -/
def navFailEnv : PageEnv :=
  { plainEnv with
    navigateResult := Except.error { message := some "navigation blocked: redirect_uri not registered" } }

/-- C6 counterexample.  The query string `?error=&code=abc123` contains an
`error` parameter (with empty value), yet — because the source tests JS
truthiness, not presence — the callback proceeds with the code exchange:
it returns true and overwrites the cached identity, where the claim
requires false and an unchanged identity. -/
def errorAndCodeEnv : PageEnv :=
  { plainEnv with
    href := "https://example.com/?error=&code=abc123", search := "?error=&code=abc123" }

/-- C9 counterexample.  With a cached identity whose username is the empty
string, `getUsername` returns the guest label (the source uses the falsy
`||` fallback), not the cached empty username the claim requires. -/
def emptyNameState : AdapterState :=
  { sdk := SDKRef.obj, isInitialized := true
    userInfo := JsUserInfo.obj { username := "", user_id := 42, email := none } }

/-- Witness for C3: the reachable state cached by a successful OAuth
callback; the repeated lookup succeeds even against an all-failing
vendor. -/
def cachedAliceState : AdapterState :=
  (FunticoManager.handleCallback (FunticoManager.initializeSDK false) codeCallbackEnv vbAllOk).state

/-- A vendor whose identity call resolves `undefined` (an async method
returning without a value); every other call succeeds. -/
def vbUndefinedUserInfo : VendorBehavior :=
  { vbAllOk with getUserInfoResult := Except.ok JsUserInfo.undefined }

/-- The state cached by a callback whose identity fetch resolved
`undefined`: the adapter stores it unvalidated. -/
def undefinedCachedState : AdapterState :=
  (FunticoManager.handleCallback (FunticoManager.initializeSDK false) codeCallbackEnv vbUndefinedUserInfo).state

/-- Witness for C10 along a concrete two-operation sequence. -/
def c10StateA : AdapterState :=
  (FunticoManager.signIn (FunticoManager.initializeSDK false) plainEnv vbAllOk).state

def c10StateB : AdapterState :=
  (FunticoManager.signOut c10StateA plainEnv vbAllOk).state

namespace FunticoManager

lemma signInHostedProbe_fields (s : AdapterState) (env : PageEnv) (vb : VendorBehavior) :
    (signInHostedProbe s env vb).1.isInitialized = s.isInitialized ∧
    (signInHostedProbe s env vb).1.sdk = s.sdk := by
  unfold signInHostedProbe
  split
  · split <;> simp
  · simp

lemma signIn_state_isInit (s : AdapterState) (env : PageEnv) (vb : VendorBehavior) :
    (signIn s env vb).state.isInitialized = s.isInitialized := by
  have hp := signInHostedProbe_fields s env vb
  rcases hProbe : signInHostedProbe s env vb with ⟨s1, early, calls0⟩
  rw [hProbe] at hp
  unfold signIn
  rw [hProbe]
  cases early
  all_goals rcases hc : callHandle s1 vb.signInWithFunticoResult with _ | e1
  all_goals rcases hn : env.navigateResult with _ | e2
  all_goals simp only [hc, hn]
  all_goals repeat' split
  all_goals simp_all

lemma signIn_state_sdk (s : AdapterState) (env : PageEnv) (vb : VendorBehavior) :
    (signIn s env vb).state.sdk = s.sdk := by
  have hp := signInHostedProbe_fields s env vb
  rcases hProbe : signInHostedProbe s env vb with ⟨s1, early, calls0⟩
  rw [hProbe] at hp
  unfold signIn
  rw [hProbe]
  cases early
  all_goals rcases hc : callHandle s1 vb.signInWithFunticoResult with _ | e1
  all_goals rcases hn : env.navigateResult with _ | e2
  all_goals simp only [hc, hn]
  all_goals repeat' split
  all_goals simp_all

lemma getUserInfo_state_isInit (s : AdapterState) (vb : VendorBehavior) :
    (getUserInfo s vb).state.isInitialized = s.isInitialized := by
  unfold getUserInfo
  rcases hc : callHandle s vb.getUserInfoResult with v | e
  all_goals repeat' split
  all_goals simp_all

lemma getUserInfo_state_sdk (s : AdapterState) (vb : VendorBehavior) :
    (getUserInfo s vb).state.sdk = s.sdk := by
  unfold getUserInfo
  rcases hc : callHandle s vb.getUserInfoResult with v | e
  all_goals repeat' split
  all_goals simp_all

lemma saveScore_state (s : AdapterState) (score : Int) (vb : VendorBehavior) :
    (saveScore s score vb).state = s := by
  unfold saveScore
  rcases hc : callHandle s vb.saveScoreResult with v | e
  all_goals repeat' split
  all_goals simp_all

lemma getLeaderboard_state (s : AdapterState) (vb : VendorBehavior) :
    (getLeaderboard s vb).state = s := by
  unfold getLeaderboard
  rcases hc : callHandle s vb.getLeaderboardResult with v | e
  all_goals repeat' split
  all_goals simp_all

lemma signOut_state_isInit (s : AdapterState) (env : PageEnv) (vb : VendorBehavior) :
    (signOut s env vb).state.isInitialized = s.isInitialized := by
  unfold signOut
  rcases hc : callHandle s vb.signOutResult with v | e
  all_goals repeat' split
  all_goals simp_all

lemma signOut_state_sdk (s : AdapterState) (env : PageEnv) (vb : VendorBehavior) :
    (signOut s env vb).state.sdk = s.sdk := by
  unfold signOut
  rcases hc : callHandle s vb.signOutResult with v | e
  all_goals repeat' split
  all_goals simp_all

lemma handleCallback_state_isInit (s : AdapterState) (env : PageEnv) (vb : VendorBehavior) :
    (handleCallback s env vb).state.isInitialized = s.isInitialized := by
  unfold handleCallback
  rcases hc1 : callHandle s vb.exchangeCodeForTokenResult with t | e1
  all_goals rcases hc2 : callHandle s vb.getUserInfoResult with v | e2
  all_goals simp only [hc1, hc2]
  all_goals repeat' split
  all_goals simp_all

lemma handleCallback_state_sdk (s : AdapterState) (env : PageEnv) (vb : VendorBehavior) :
    (handleCallback s env vb).state.sdk = s.sdk := by
  unfold handleCallback
  rcases hc1 : callHandle s vb.exchangeCodeForTokenResult with t | e1
  all_goals rcases hc2 : callHandle s vb.getUserInfoResult with v | e2
  all_goals simp only [hc1, hc2]
  all_goals repeat' split
  all_goals simp_all

lemma notReady_isInitialized_false {s : AdapterState} (h : Inv s) (hr : isReady s = false) :
    s.isInitialized = false ∧ s.sdk = SDKRef.undefined ∧ s.userInfo = JsUserInfo.null := by
  rcases h with ⟨h1, h2⟩ | h
  · exfalso
    rw [isReady, h1, h2] at hr
    simp at hr
  · exact h

lemma signIn_state_notReady {s : AdapterState} (env : PageEnv) (vb : VendorBehavior)
    (h : isReady s = false) : (signIn s env vb).state = s := by
  unfold signIn
  simp [h]

lemma getUserInfo_state_notReady {s : AdapterState} (vb : VendorBehavior)
    (h : isReady s = false) : (getUserInfo s vb).state = s := by
  unfold getUserInfo
  simp [h]

lemma signOut_state_notReady {s : AdapterState} (env : PageEnv) (vb : VendorBehavior)
    (h : isReady s = false) : (signOut s env vb).state = s := by
  unfold signOut
  simp [h]

lemma callHandle_noHandle {s : AdapterState} (h : s.sdk ≠ SDKRef.obj)
    (o : Except JsErr α) : callHandle s o = Except.error absentHandleTypeError := by
  unfold callHandle
  cases hSdk : s.sdk <;> simp_all

lemma handleCallback_state_noHandle {s : AdapterState} (env : PageEnv) (vb : VendorBehavior)
    (h : s.sdk ≠ SDKRef.obj) : (handleCallback s env vb).state = s := by
  unfold handleCallback
  rw [callHandle_noHandle h vb.exchangeCodeForTokenResult]
  simp only []
  repeat' split
  all_goals simp_all

end FunticoManager

/-- Construction establishes the invariant. -/
lemma inv_init (constructorThrew : Bool) : Inv (FunticoManager.initializeSDK constructorThrew) := by
  unfold FunticoManager.initializeSDK Inv
  split <;> simp

/-- Every public operation preserves the invariant. -/
lemma inv_step {s t : AdapterState} (hi : Inv s) (hs : Step s t) : Inv t := by
  have hready : Inv s → ∀ u : AdapterState,
      u.isInitialized = s.isInitialized → u.sdk = s.sdk → u.userInfo = s.userInfo → Inv u := by
    intro h u h1 h2 h3
    rcases h with ⟨g1, g2⟩ | ⟨g1, g2, g3⟩
    · exact Or.inl ⟨h1.trans g1, h2.trans g2⟩
    · exact Or.inr ⟨h1.trans g1, h2.trans g2, h3.trans g3⟩
  rcases hi with ⟨h1, h2⟩ | ⟨h1, h2, h3⟩
  · -- construction succeeded: the flag and handle are never written again
    cases hs with
    | signIn env vb =>
        exact Or.inl ⟨(FunticoManager.signIn_state_isInit s env vb).trans h1,
          (FunticoManager.signIn_state_sdk s env vb).trans h2⟩
    | getUserInfo vb =>
        exact Or.inl ⟨(FunticoManager.getUserInfo_state_isInit s vb).trans h1,
          (FunticoManager.getUserInfo_state_sdk s vb).trans h2⟩
    | saveScore score vb =>
        rw [FunticoManager.saveScore_state s score vb]
        exact Or.inl ⟨h1, h2⟩
    | getLeaderboard vb =>
        rw [FunticoManager.getLeaderboard_state s vb]
        exact Or.inl ⟨h1, h2⟩
    | signOut env vb =>
        exact Or.inl ⟨(FunticoManager.signOut_state_isInit s env vb).trans h1,
          (FunticoManager.signOut_state_sdk s env vb).trans h2⟩
    | handleCallback env vb =>
        exact Or.inl ⟨(FunticoManager.handleCallback_state_isInit s env vb).trans h1,
          (FunticoManager.handleCallback_state_sdk s env vb).trans h2⟩
  · -- construction failed: every operation leaves the state untouched
    have hnr : FunticoManager.isReady s = false := by
      rw [FunticoManager.isReady, h1]
      simp
    cases hs with
    | signIn env vb =>
        rw [FunticoManager.signIn_state_notReady env vb hnr]
        exact Or.inr ⟨h1, h2, h3⟩
    | getUserInfo vb =>
        rw [FunticoManager.getUserInfo_state_notReady vb hnr]
        exact Or.inr ⟨h1, h2, h3⟩
    | saveScore score vb =>
        rw [FunticoManager.saveScore_state s score vb]
        exact Or.inr ⟨h1, h2, h3⟩
    | getLeaderboard vb =>
        rw [FunticoManager.getLeaderboard_state s vb]
        exact Or.inr ⟨h1, h2, h3⟩
    | signOut env vb =>
        rw [FunticoManager.signOut_state_notReady env vb hnr]
        exact Or.inr ⟨h1, h2, h3⟩
    | handleCallback env vb =>
        rw [FunticoManager.handleCallback_state_noHandle env vb (by rw [h2]; simp)]
        exact Or.inr ⟨h1, h2, h3⟩

/-- Every reachable state satisfies the invariant. -/
lemma reachable_inv {s : AdapterState} (h : Reachable s) : Inv s := by
  induction h with
  | init b => exact inv_init b
  | step _ hs ih => exact inv_step ih hs

/-- In a reachable ready state the handle is the vendor object. -/
lemma reachable_ready_obj {s : AdapterState} (h : Reachable s)
    (hr : FunticoManager.isReady s = true) : s.sdk = SDKRef.obj := by
  rcases reachable_inv h with ⟨_, h2⟩ | ⟨h1, _, _⟩
  · exact h2
  · rw [FunticoManager.isReady, h1] at hr
    simp at hr

lemma callHandle_obj {s : AdapterState} (h : s.sdk = SDKRef.obj)
    (o : Except JsErr α) : FunticoManager.callHandle s o = o := by
  unfold FunticoManager.callHandle
  rw [h]

/-- Per-step preservation of the construction-time fields. -/
lemma step_fields {a b : AdapterState} (h : Step a b) :
    b.isInitialized = a.isInitialized ∧ b.sdk = a.sdk := by
  cases h with
  | signIn env vb =>
      exact ⟨FunticoManager.signIn_state_isInit a env vb, FunticoManager.signIn_state_sdk a env vb⟩
  | getUserInfo vb =>
      exact ⟨FunticoManager.getUserInfo_state_isInit a vb, FunticoManager.getUserInfo_state_sdk a vb⟩
  | saveScore score vb =>
      rw [FunticoManager.saveScore_state a score vb]
      exact ⟨rfl, rfl⟩
  | getLeaderboard vb =>
      rw [FunticoManager.getLeaderboard_state a vb]
      exact ⟨rfl, rfl⟩
  | signOut env vb =>
      exact ⟨FunticoManager.signOut_state_isInit a env vb, FunticoManager.signOut_state_sdk a env vb⟩
  | handleCallback env vb =>
      exact ⟨FunticoManager.handleCallback_state_isInit a env vb,
        FunticoManager.handleCallback_state_sdk a env vb⟩

/-- C1 (code_bug exhibit).  When the adapter is not ready, the five guarded
operations return their documented empty/false results, leave the state
untouched and attempt no call on the `sdk` field; `handleCallback`,
however, never consults `isReady`: on the not-ready state produced by a
failed construction, with `?code=abc123` in the query string, it still
returns false only because the `TypeError` from dereferencing the absent
handle is swallowed — its attempted-call list shows the exchange attempt
the claim forbids. -/
theorem c1_notReady_guard (s : AdapterState) (env : PageEnv) (vb : VendorBehavior) (score : Int)
    (h : FunticoManager.isReady s = false) :
    FunticoManager.signIn s env vb = { ret := Except.ok false, state := s } ∧
    FunticoManager.getUserInfo s vb = { ret := Except.ok JsUserInfo.null, state := s } ∧
    FunticoManager.saveScore s score vb = { ret := Except.ok false, state := s } ∧
    FunticoManager.getLeaderboard s vb = { ret := Except.ok [], state := s } ∧
    FunticoManager.signOut s env vb = { ret := Except.ok false, state := s } ∧
    (FunticoManager.handleCallback (FunticoManager.initializeSDK true) codeCallbackEnv vb).ret
      = Except.ok false ∧
    (FunticoManager.handleCallback (FunticoManager.initializeSDK true) codeCallbackEnv vb).calls
      = [SdkCall.exchangeCodeForToken "abc123"] := by
  refine ⟨?_, ?_, ?_, ?_, ?_, rfl, rfl⟩
  · unfold FunticoManager.signIn
    simp [h]
  · unfold FunticoManager.getUserInfo
    simp [h]
  · unfold FunticoManager.saveScore
    simp [h]
  · unfold FunticoManager.getLeaderboard
    simp [h]
  · unfold FunticoManager.signOut
    simp [h]

/-- Witness for C1 at the concrete not-ready state. -/
theorem c1_notReady_guard_witness :
    FunticoManager.isReady (FunticoManager.initializeSDK true) = false ∧
    FunticoManager.saveScore (FunticoManager.initializeSDK true) 100 vbAllOk
      = { ret := Except.ok false, state := FunticoManager.initializeSDK true } :=
  ⟨rfl, (c1_notReady_guard (FunticoManager.initializeSDK true) plainEnv vbAllOk 100 rfl).2.2.1⟩

/-- C7: no public operation ever lets an exception escape to the caller —
for every state (ready or not), page environment and vendor behavior
(including rejecting calls and a throwing navigation), every operation's
returned value is a plain `.ok` result. -/
theorem c7_no_escaping_exception (s : AdapterState) (env : PageEnv) (vb : VendorBehavior)
    (score : Int) :
    (FunticoManager.signIn s env vb).ret.isOk = true ∧
    (FunticoManager.getUserInfo s vb).ret.isOk = true ∧
    (FunticoManager.saveScore s score vb).ret.isOk = true ∧
    (FunticoManager.getLeaderboard s vb).ret.isOk = true ∧
    (FunticoManager.signOut s env vb).ret.isOk = true ∧
    (FunticoManager.handleCallback s env vb).ret.isOk = true := by
  refine ⟨?_, ?_, ?_, ?_, ?_, ?_⟩
  · rcases hProbe : FunticoManager.signInHostedProbe s env vb with ⟨s1, early, calls0⟩
    unfold FunticoManager.signIn
    rw [hProbe]
    cases early
    all_goals rcases hc : FunticoManager.callHandle s1 vb.signInWithFunticoResult with _ | e1
    all_goals rcases hn : env.navigateResult with _ | e2
    all_goals simp only [hc, hn]
    all_goals repeat' split
    all_goals simp_all [Except.isOk, Except.toBool]
  · unfold FunticoManager.getUserInfo
    rcases hc : FunticoManager.callHandle s vb.getUserInfoResult with v | e
    all_goals repeat' split
    all_goals simp_all [Except.isOk, Except.toBool]
  · unfold FunticoManager.saveScore
    rcases hc : FunticoManager.callHandle s vb.saveScoreResult with v | e
    all_goals repeat' split
    all_goals simp_all [Except.isOk, Except.toBool]
  · unfold FunticoManager.getLeaderboard
    rcases hc : FunticoManager.callHandle s vb.getLeaderboardResult with v | e
    all_goals repeat' split
    all_goals simp_all [Except.isOk, Except.toBool]
  · unfold FunticoManager.signOut
    rcases hc : FunticoManager.callHandle s vb.signOutResult with v | e
    all_goals repeat' split
    all_goals simp_all [Except.isOk, Except.toBool]
  · unfold FunticoManager.handleCallback
    rcases hc1 : FunticoManager.callHandle s vb.exchangeCodeForTokenResult with t | e1
    all_goals rcases hc2 : FunticoManager.callHandle s vb.getUserInfoResult with v | e2
    all_goals simp only [hc1, hc2]
    all_goals repeat' split
    all_goals simp_all [Except.isOk, Except.toBool]

/-- C8 counterexample.  The source's `isAuthenticated` is
`this.userInfo !== null`; the adapter caches vendor `getUserInfo`
resolutions unvalidated, so a vendor promise resolving `undefined`
(cached here by `handleCallback`, a state reachable by public operations)
makes `isAuthenticated` true although no identity is cached — the
adapter even reports the guest username in that state. -/
theorem c8_undefined_not_null_cex :
    Reachable undefinedCachedState ∧
    undefinedCachedState.userInfo = JsUserInfo.undefined ∧
    jsTruthy undefinedCachedState.userInfo = false ∧
    FunticoManager.isAuthenticated undefinedCachedState = true ∧
    FunticoManager.getUsername undefinedCachedState = "Guest" :=
  ⟨Reachable.step (Reachable.init false)
      (Step.handleCallback (FunticoManager.initializeSDK false) codeCallbackEnv vbUndefinedUserInfo),
   rfl, rfl, rfl, rfl⟩

/-- C8 (amended): `isAuthenticated` mirrors `userInfo !== null` — it is
true iff the cached value differs from JS `null`: true whenever an
identity object is cached, false in the initial or cleared `null` state,
but also true when a cached vendor resolution was `undefined`, despite no
identity being present. -/
theorem c8_isAuthenticated_ne_null (s : AdapterState) :
    (FunticoManager.isAuthenticated s = true ↔ s.userInfo ≠ JsUserInfo.null) ∧
    (∀ u : UserIdentity, s.userInfo = JsUserInfo.obj u →
      FunticoManager.isAuthenticated s = true) ∧
    (s.userInfo = JsUserInfo.null → FunticoManager.isAuthenticated s = false) ∧
    (s.userInfo = JsUserInfo.undefined → FunticoManager.isAuthenticated s = true) := by
  refine ⟨?_, ?_, ?_, ?_⟩
  · unfold FunticoManager.isAuthenticated
    simp
  · intro u hu
    unfold FunticoManager.isAuthenticated
    rw [hu]
    simp
  · intro h
    unfold FunticoManager.isAuthenticated
    rw [h]
    simp
  · intro h
    unfold FunticoManager.isAuthenticated
    rw [h]
    simp

/-- Witness for the amended C8: an authenticated state with a cached
identity and an unauthenticated freshly constructed state. -/
theorem c8_isAuthenticated_ne_null_witness :
    FunticoManager.isAuthenticated cachedAliceState = true ∧
    FunticoManager.isAuthenticated (FunticoManager.initializeSDK false) = false :=
  ⟨(c8_isAuthenticated_ne_null cachedAliceState).2.1 aliceIdentity rfl,
   (c8_isAuthenticated_ne_null (FunticoManager.initializeSDK false)).2.2.1 rfl⟩

theorem c2_inner_catch_no_demo_cex :
    (FunticoManager.signIn (FunticoManager.initializeSDK false) plainEnv vbSignInRejects).ret
      = Except.ok true ∧
    (FunticoManager.signIn (FunticoManager.initializeSDK false) plainEnv vbSignInRejects).state.userInfo
      = JsUserInfo.null ∧
    (FunticoManager.signIn (FunticoManager.initializeSDK false) plainEnv vbSignInRejects).state.userInfo
      ≠ JsUserInfo.obj FunticoManager.demoIdentity ∧
    (FunticoManager.signIn (FunticoManager.initializeSDK false) plainEnv vbSignInRejects).navigatedTo.isSome
      = true := by
  exact ⟨rfl, rfl, by decide, rfl⟩

/-- C2 (amended): the demo-identity fallback fires only when the whole
sign-in attempt throws to the outer handler — i.e. when, after the vendor
sign-in call fails, the fallback navigation itself throws — with a message
containing `redirect_uri`; then the call returns true, the demo identity is
cached and the blocking notice is shown. -/
theorem c2_demo_fallback_on_outer_throw (s : AdapterState) (env : PageEnv) (vb : VendorBehavior)
    (e1 e2 : JsErr) (m : String) (hreach : Reachable s)
    (h : FunticoManager.isReady s = true)
    (hh : FunticoManager.isFunticoHostedOf env.hostname = false)
    (hs1 : vb.signInWithFunticoResult = Except.error e1)
    (hn : env.navigateResult = Except.error e2)
    (hm : e2.message = some m) (hm1 : m ≠ "")
    (hm2 : jsIncludes m "redirect_uri" = true) :
    (FunticoManager.signIn s env vb).ret = Except.ok true ∧
    (FunticoManager.signIn s env vb).state.userInfo = JsUserInfo.obj FunticoManager.demoIdentity ∧
    (FunticoManager.signIn s env vb).alerted = true := by
  have hobj := reachable_ready_obj hreach h
  unfold FunticoManager.signIn FunticoManager.signInHostedProbe
  simp [h, hh, callHandle_obj hobj, hs1, hn, optStrTruthy, hm, hm1, hm2]

theorem c2_demo_fallback_on_outer_throw_witness :
    (FunticoManager.signIn (FunticoManager.initializeSDK false) navFailEnv vbSignInRejects).ret
      = Except.ok true ∧
    (FunticoManager.signIn (FunticoManager.initializeSDK false) navFailEnv vbSignInRejects).state.userInfo
      = JsUserInfo.obj FunticoManager.demoIdentity ∧
    (FunticoManager.signIn (FunticoManager.initializeSDK false) navFailEnv vbSignInRejects).alerted
      = true :=
  c2_demo_fallback_on_outer_throw (FunticoManager.initializeSDK false) navFailEnv vbSignInRejects
    { message := some "invalid redirect_uri for client" }
    { message := some "navigation blocked: redirect_uri not registered" }
    "navigation blocked: redirect_uri not registered"
    (Reachable.init false) rfl (by decide) rfl rfl rfl (by decide) (by decide)

/-- C3: in every reachable state with a cached identity, `getUserInfo`
returns exactly that identity, issues no vendor call, leaves the state
unchanged, and a repeated call (under any vendor behavior) returns the
same identity. -/
theorem c3_cached_identity_readthrough (s : AdapterState) (u : UserIdentity)
    (vb vb2 : VendorBehavior) (hreach : Reachable s) (hu : s.userInfo = JsUserInfo.obj u) :
    (FunticoManager.getUserInfo s vb).ret = Except.ok (JsUserInfo.obj u) ∧
    (FunticoManager.getUserInfo s vb).calls = [] ∧
    (FunticoManager.getUserInfo s vb).state = s ∧
    (FunticoManager.getUserInfo (FunticoManager.getUserInfo s vb).state vb2).ret
      = Except.ok (JsUserInfo.obj u) := by
  have hready : FunticoManager.isReady s = true := by
    rcases reachable_inv hreach with ⟨h1, h2⟩ | ⟨h1, h2, h3⟩
    · unfold FunticoManager.isReady
      rw [h1, h2]
      simp
    · rw [h3] at hu
      exact absurd hu (by simp)
  have hmain : ∀ vbx : VendorBehavior,
      FunticoManager.getUserInfo s vbx = { ret := Except.ok (JsUserInfo.obj u), state := s } := by
    intro vbx
    unfold FunticoManager.getUserInfo
    simp [hready, hu, jsTruthy]
  refine ⟨?_, ?_, ?_, ?_⟩
  · rw [hmain vb]
  · rw [hmain vb]
  · rw [hmain vb]
  · rw [hmain vb]
    exact congrArg OpOut.ret (hmain vb2)

theorem c3_cached_identity_readthrough_witness :
    (FunticoManager.getUserInfo cachedAliceState vbAllFail).ret = Except.ok (JsUserInfo.obj aliceIdentity) ∧
    (FunticoManager.getUserInfo cachedAliceState vbAllFail).calls = [] :=
  have hreach : Reachable cachedAliceState :=
    Reachable.step (Reachable.init false)
      (Step.handleCallback (FunticoManager.initializeSDK false) codeCallbackEnv vbAllOk)
  have hmain := c3_cached_identity_readthrough cachedAliceState aliceIdentity
    vbAllFail vbAllFail hreach rfl
  ⟨hmain.1, hmain.2.1⟩

/-- C4: on a reachable ready adapter, sign-out on vendor success clears the
cached identity (so `isAuthenticated` is false afterwards) and returns
true; on vendor failure it returns false and leaves the state unchanged. -/
theorem c4_signOut_contract (s : AdapterState) (env : PageEnv) (vb : VendorBehavior)
    (hreach : Reachable s) (h : FunticoManager.isReady s = true) :
    (vb.signOutResult = Except.ok () →
      (FunticoManager.signOut s env vb).ret = Except.ok true ∧
      (FunticoManager.signOut s env vb).state.userInfo = JsUserInfo.null ∧
      FunticoManager.isAuthenticated (FunticoManager.signOut s env vb).state = false) ∧
    (∀ e : JsErr, vb.signOutResult = Except.error e →
      (FunticoManager.signOut s env vb).ret = Except.ok false ∧
      (FunticoManager.signOut s env vb).state = s) := by
  have hobj := reachable_ready_obj hreach h
  constructor
  · intro hok
    unfold FunticoManager.signOut
    simp [h, callHandle_obj hobj, hok, FunticoManager.isAuthenticated]
  · intro e he
    unfold FunticoManager.signOut
    simp [h, callHandle_obj hobj, he]

/-- Witness for C4: both branches at concrete ready states. -/
theorem c4_signOut_contract_witness :
    (FunticoManager.signOut (FunticoManager.initializeSDK false) plainEnv vbAllOk).ret
      = Except.ok true ∧
    (FunticoManager.signOut (FunticoManager.initializeSDK false) plainEnv vbAllFail).ret
      = Except.ok false :=
  ⟨((c4_signOut_contract (FunticoManager.initializeSDK false) plainEnv vbAllOk
      (Reachable.init false) rfl).1 rfl).1,
   ((c4_signOut_contract (FunticoManager.initializeSDK false) plainEnv vbAllFail
      (Reachable.init false) rfl).2 sdkDownError rfl).1⟩

/-- C5: on a ready adapter `saveScore` resolves to true for every score and
every vendor outcome (success or rejection); it can never resolve to
false (and, the result being a plain `.ok`, never rejects). -/
theorem c5_saveScore_always_true (s : AdapterState) (score : Int) (vb : VendorBehavior)
    (h : FunticoManager.isReady s = true) :
    (FunticoManager.saveScore s score vb).ret = Except.ok true := by
  unfold FunticoManager.saveScore
  rcases hc : FunticoManager.callHandle s vb.saveScoreResult with v | e
  all_goals simp [h, hc]

/-- Witness for C5 with a rejecting vendor. -/
theorem c5_saveScore_always_true_witness :
    (FunticoManager.saveScore (FunticoManager.initializeSDK false) 12345 vbAllFail).ret
      = Except.ok true :=
  c5_saveScore_always_true (FunticoManager.initializeSDK false) 12345 vbAllFail rfl

theorem c6_error_param_cex :
    urlParamsGet errorAndCodeEnv.search "error" = some "" ∧
    (FunticoManager.handleCallback (FunticoManager.initializeSDK false) errorAndCodeEnv vbAllOk).ret
      = Except.ok true ∧
    (FunticoManager.handleCallback (FunticoManager.initializeSDK false) errorAndCodeEnv vbAllOk).state.userInfo
      = JsUserInfo.obj aliceIdentity ∧
    (FunticoManager.initializeSDK false).userInfo = JsUserInfo.null :=
  ⟨rfl, rfl, rfl, rfl⟩

/-- C6 (amended): callback handling keyed on truthy (non-empty) parameter
values — a truthy `error` value short-circuits to false with the state
unchanged; otherwise a truthy `code` value with the handle present and
both vendor calls succeeding returns true, caches the fetched identity and
rewrites the visible address to the bare pathname; otherwise the call
returns false with the state unchanged. -/
theorem c6_handleCallback_amended (s : AdapterState) (env : PageEnv) (vb : VendorBehavior)
    (tok : String) (v : JsUserInfo) :
    (optStrTruthy (urlParamsGet env.search "error") = true →
      FunticoManager.handleCallback s env vb = { ret := Except.ok false, state := s }) ∧
    (optStrTruthy (urlParamsGet env.search "error") = false →
      optStrTruthy (urlParamsGet env.search "code") = true →
      s.sdk = SDKRef.obj →
      vb.exchangeCodeForTokenResult = Except.ok tok →
      vb.getUserInfoResult = Except.ok v →
      (FunticoManager.handleCallback s env vb).ret = Except.ok true ∧
      (FunticoManager.handleCallback s env vb).state.userInfo = v ∧
      (FunticoManager.handleCallback s env vb).urlRewrittenTo = some env.pathname) ∧
    (optStrTruthy (urlParamsGet env.search "error") = false →
      optStrTruthy (urlParamsGet env.search "code") = false →
      FunticoManager.handleCallback s env vb = { ret := Except.ok false, state := s }) := by
  refine ⟨?_, ?_, ?_⟩
  · intro he
    unfold FunticoManager.handleCallback
    simp [he]
  · intro he hc hobj hex hui
    unfold FunticoManager.handleCallback
    simp [he, hc, callHandle_obj hobj, hex, hui]
  · intro he hc
    unfold FunticoManager.handleCallback
    simp [he, hc]

/-- Witness for the amended C6: the success clause at the concrete
callback page. -/
theorem c6_handleCallback_amended_witness :
    (FunticoManager.handleCallback (FunticoManager.initializeSDK false) codeCallbackEnv vbAllOk).ret
      = Except.ok true ∧
    (FunticoManager.handleCallback (FunticoManager.initializeSDK false) codeCallbackEnv vbAllOk).state.userInfo
      = JsUserInfo.obj aliceIdentity ∧
    (FunticoManager.handleCallback (FunticoManager.initializeSDK false) codeCallbackEnv vbAllOk).urlRewrittenTo
      = some codeCallbackEnv.pathname :=
  (c6_handleCallback_amended (FunticoManager.initializeSDK false) codeCallbackEnv vbAllOk
    "tok123" (JsUserInfo.obj aliceIdentity)).2.1 (by decide) (by decide) rfl rfl rfl

theorem c9_empty_username_cex :
    emptyNameState.userInfo = JsUserInfo.obj { username := "", user_id := 42, email := none } ∧
    FunticoManager.getUsername emptyNameState = "Guest" ∧
    FunticoManager.getUsername emptyNameState ≠ "" := by
  exact ⟨rfl, rfl, by decide⟩

/-- C9 (amended): `getUsername` returns the guest label when no identity is
cached (the `userInfo` value is falsy: `null` or `undefined`) or when the
cached username is the empty string, and the cached username otherwise. -/
theorem c9_getUsername_guest_fallback (s : AdapterState) :
    (jsTruthy s.userInfo = false → FunticoManager.getUsername s = "Guest") ∧
    (∀ u : UserIdentity, s.userInfo = JsUserInfo.obj u → u.username = "" →
      FunticoManager.getUsername s = "Guest") ∧
    (∀ u : UserIdentity, s.userInfo = JsUserInfo.obj u → u.username ≠ "" →
      FunticoManager.getUsername s = u.username) := by
  refine ⟨?_, ?_, ?_⟩
  · intro h
    unfold FunticoManager.getUsername
    rcases hju : s.userInfo with _ | _ | u
    · rfl
    · rfl
    · rw [hju] at h
      simp [jsTruthy] at h
  · intro u hu he
    unfold FunticoManager.getUsername
    rw [hu]
    simp [he]
  · intro u hu he
    unfold FunticoManager.getUsername
    rw [hu]
    simp [he]

/-- Witness for the amended C9 in its three clauses. -/
theorem c9_getUsername_guest_fallback_witness :
    FunticoManager.getUsername (FunticoManager.initializeSDK true) = "Guest" ∧
    FunticoManager.getUsername emptyNameState = "Guest" ∧
    FunticoManager.getUsername cachedAliceState = "alice" :=
  ⟨(c9_getUsername_guest_fallback (FunticoManager.initializeSDK true)).1 rfl,
   (c9_getUsername_guest_fallback emptyNameState).2.1
     { username := "", user_id := 42, email := none } rfl rfl,
   (c9_getUsername_guest_fallback cachedAliceState).2.2 aliceIdentity rfl (by decide)⟩

/-- C10: readiness is fixed at construction — no sequence of public
operations changes the initialization flag or the handle, so `isReady`
is constant along every operation sequence. -/
theorem c10_readiness_constant (s t : AdapterState)
    (h : Relation.ReflTransGen Step s t) :
    t.isInitialized = s.isInitialized ∧ t.sdk = s.sdk ∧
    FunticoManager.isReady t = FunticoManager.isReady s := by
  induction h with
  | refl => exact ⟨rfl, rfl, rfl⟩
  | @tail b c hab hstep ih =>
      have hf := step_fields hstep
      refine ⟨hf.1.trans ih.1, hf.2.trans ih.2.1, ?_⟩
      have hr : FunticoManager.isReady c = FunticoManager.isReady b := by
        unfold FunticoManager.isReady
        rw [hf.1, hf.2]
      exact hr.trans ih.2.2

theorem c10_readiness_constant_witness :
    FunticoManager.isReady c10StateB
      = FunticoManager.isReady (FunticoManager.initializeSDK false) :=
  (c10_readiness_constant (FunticoManager.initializeSDK false) c10StateB
    (Relation.ReflTransGen.tail
      (Relation.ReflTransGen.single
        (Step.signIn (FunticoManager.initializeSDK false) plainEnv vbAllOk))
      (Step.signOut c10StateA plainEnv vbAllOk))).2.2

end AvalancheKnight
